import Mathlib

/-!
Verification of the pytools RPC transport, framing codec and dispatcher.

The development shallowly embeds the three framing/transport variants of the
repository and the request dispatcher of the analysis server:

* `src/editing_tools/server/rpc.py` — `encode`, `_get_head_and_body`,
  `_get_contentlength`, `decode`, `ResponseMessage.create`;
* `src/server/app.py` — `TransportMessage.to_bytes` / `from_bytes`,
  `ResponseError`, `ResponseParams`, the `Server` handlers and
  `Server.handle_message` / `request_handler`;
* `src/api/transport.py` — `RPCMessage.response`, `RPCMessage.from_bytes`,
  `RPCErrorMessage`, the `request` read loop;
* `src/editing_tools/server/server.py` — `Server.run_command` / `Server.process`.

Bytes are modelled as `List Nat` (each element a byte value), Python strings as
Lean `String` (`len` on a Python `str` is the character count, matching
`String.length`), and JSON values as the inductive `JValue`.  External effects
(`os.chdir`, the jedi/black/pyflakes backends, `json.loads` at the client) are
oracle parameters collected in environment structures.
-/

/-! ## JSON value model -/

inductive JValue where
  | null
  | bool (b : Bool)
  | num (n : Int)
  | str (s : String)
  | arr (xs : List JValue)
  | obj (kvs : List (String × JValue))

/-- Python truthiness of a JSON value (`if value:`): `None`, `False`, `0`,
empty string, empty list and empty dict are falsy. -/
def jtruthy : JValue → Bool
  | .null => false
  | .bool b => b
  | .num n => n != 0
  | .str s => !s.isEmpty
  | .arr xs => !xs.isEmpty
  | .obj kvs => !kvs.isEmpty

/-- Dictionary lookup (`d[k]` / `d.get(k)`); keys are unique in the dicts the
embedded code builds, so first-match lookup models Python dict access. -/
def jlookup : List (String × JValue) → String → Option JValue
  | [], _ => none
  | (k', v) :: rest, k => if k' = k then some v else jlookup rest k

/-- Dictionary assignment `d[k] = v`: replace in place or append. -/
def jsetKey : List (String × JValue) → String → JValue → List (String × JValue)
  | [], k, v => [(k, v)]
  | (k', v') :: rest, k, v =>
    if k' = k then (k, v) :: rest else (k', v') :: jsetKey rest k v

/-- Whether an object value carries the key `k`. -/
def jhasKey (v : JValue) (k : String) : Bool :=
  match v with
  | .obj kvs => (jlookup kvs k).isSome
  | _ => false

mutual

/-- Structural equality of JSON values, modelling Python `==` on decoded JSON
data.  (Python dict equality ignores key insertion order; the embedded code
only ever compares scalar values — workspace path strings — where the two
notions coincide.) -/
def jeq : JValue → JValue → Bool
  | .null, .null => true
  | .bool a, .bool b => a == b
  | .num a, .num b => a == b
  | .str a, .str b => a == b
  | .arr a, .arr b => jeqList a b
  | .obj a, .obj b => jeqKVs a b
  | _, _ => false

def jeqList : List JValue → List JValue → Bool
  | [], [] => true
  | x :: xs, y :: ys => jeq x y && jeqList xs ys
  | _, _ => false

def jeqKVs : List (String × JValue) → List (String × JValue) → Bool
  | [], [] => true
  | (k1, v1) :: xs, (k2, v2) :: ys => k1 == k2 && jeq v1 v2 && jeqKVs xs ys
  | _, _ => false

end

/-! ## Response constructors (three variants of the repository) -/

/-- `ResponseError(code=…, message=…)` of `src/server/app.py`: the dict
`\x7b"code": code, "message": message\x7d`. -/
def responseError (code : Int) (message : String) : JValue :=
  .obj [("code", .num code), ("message", .str message)]

/-- `ResponseParams(result=…, error=…)` of `src/server/app.py`: `if error:`
build `\x7b"error": error\x7d`, else `\x7b"result": result\x7d`.  Both
arguments default to `None` (`JValue.null`). -/
def responseParams (result : JValue) (error : JValue) : JValue :=
  if jtruthy error then .obj [("error", error)] else .obj [("result", result)]

/-- `RPCErrorMessage(code, message)` of `src/api/transport.py`. -/
def rpcErrorMessage (code : Int) (message : String) : JValue :=
  .obj [("code", .num code), ("message", .str message)]

/-- `RPCMessage.response(result=None, error=None)` of `src/api/transport.py`:
`if error:` build `\x7b"error": error\x7d`, else `\x7b"result": result\x7d`. -/
def rpcResponse (result : JValue) (error : JValue) : JValue :=
  if jtruthy error then .obj [("error", error)] else .obj [("result", result)]

/-- `ResponseMessage.create(msg_id, results=None, error=None)` of
`src/editing_tools/server/rpc.py`: the base `Message` dict
`\x7b"jsonrpc": "2.0"\x7d` updated with id, results and error — all three keys
are always present. -/
def responseMessageCreate (msgId results error : JValue) : JValue :=
  .obj [("jsonrpc", .str "2.0"), ("id", msgId), ("results", results),
        ("error", error)]

/-- Extract the error code of a response object, when it is an error
response. -/
def getErrorCode (v : JValue) : Option Int :=
  match v with
  | .obj kvs =>
    match jlookup kvs "error" with
    | some (.obj e) =>
      match jlookup e "code" with
      | some (.num n) => some n
      | _ => none
    | _ => none
  | _ => none

/-! ## Decimal digits

Python renders `Content-Length` with `"%s" % n` / f-strings (decimal digits)
and parses it back with `int(...)`.  `natDecimal` is the decimal printer
(fuelled so that it is structurally recursive and kernel-reducible), and
`digitsVal` the accumulator loop of `int` on a digit string. -/

def natDecimalAux : Nat → Nat → List Char
  | 0, _ => []
  | fuel + 1, n =>
    if n < 10 then [Char.ofNat (48 + n)]
    else natDecimalAux fuel (n / 10) ++ [Char.ofNat (48 + n % 10)]

def natDecimal (n : Nat) : List Char := natDecimalAux (n + 1) n

def digitsVal (ds : List Char) : Nat :=
  ds.foldl (fun a c => a * 10 + (c.toNat - 48)) 0

/-! ## Byte-level primitives -/

/-- `bytes.decode("ascii")`: every byte must be < 128. -/
def asciiDecode : List Nat → Option (List Char)
  | [] => some []
  | b :: rest =>
    if b < 128 then (asciiDecode rest).map (fun cs => Char.ofNat b :: cs)
    else none

/-- UTF-8 encoding of one code point, by its standard arithmetic
definition. -/
def utf8EncodeChar (n : Nat) : List Nat :=
  if n < 0x80 then [n]
  else if n < 0x800 then [0xC0 + n / 0x40, 0x80 + n % 0x40]
  else if n < 0x10000 then
    [0xE0 + n / 0x1000, 0x80 + n / 0x40 % 0x40, 0x80 + n % 0x40]
  else
    [0xF0 + n / 0x40000, 0x80 + n / 0x1000 % 0x40, 0x80 + n / 0x40 % 0x40,
     0x80 + n % 0x40]

/-- `str.encode("utf-8")` over the character list. -/
def utf8Bytes : List Char → List Nat
  | [] => []
  | c :: cs => utf8EncodeChar c.toNat ++ utf8Bytes cs

/-- `str.encode("utf-8")` of a string. -/
def strUtf8 (s : String) : List Nat := utf8Bytes s.data

/-- Byte list of an ASCII string (`str.encode("ascii")`); used both for the
header encoding in the codecs and to write concrete wire buffers. -/
def strBytes (s : String) : List Nat := s.data.map Char.toNat

mutual

/-- `bytes.decode("utf-8")` (strict): decode a byte list to code points,
`none` on malformed input.  The continuation of each multi-byte sequence is
handled by `utf8Decode2`/`utf8Decode3`/`utf8Decode4`. -/
def utf8DecodeBytes : List Nat → Option (List Char)
  | [] => some []
  | b :: rest =>
    if b < 0x80 then
      (utf8DecodeBytes rest).map (fun cs => Char.ofNat b :: cs)
    else if b < 0xC2 then none
    else if b < 0xE0 then utf8Decode2 b rest
    else if b < 0xF0 then utf8Decode3 b rest
    else if b < 0xF5 then utf8Decode4 b rest
    else none

def utf8Decode2 (b : Nat) : List Nat → Option (List Char)
  | b1 :: rest1 =>
    if 0x80 ≤ b1 ∧ b1 < 0xC0 then
      (utf8DecodeBytes rest1).map
        (fun cs => Char.ofNat ((b - 0xC0) * 0x40 + (b1 - 0x80)) :: cs)
    else none
  | [] => none

def utf8Decode3 (b : Nat) : List Nat → Option (List Char)
  | b1 :: b2 :: rest2 =>
    if (0x80 ≤ b1 ∧ b1 < 0xC0) ∧ (0x80 ≤ b2 ∧ b2 < 0xC0) then
      (utf8DecodeBytes rest2).map
        (fun cs =>
          Char.ofNat ((b - 0xE0) * 0x1000 + (b1 - 0x80) * 0x40 +
            (b2 - 0x80)) :: cs)
    else none
  | _ => none

def utf8Decode4 (b : Nat) : List Nat → Option (List Char)
  | b1 :: b2 :: b3 :: rest3 =>
    if (0x80 ≤ b1 ∧ b1 < 0xC0) ∧ (0x80 ≤ b2 ∧ b2 < 0xC0) ∧
        (0x80 ≤ b3 ∧ b3 < 0xC0) then
      (utf8DecodeBytes rest3).map
        (fun cs =>
          Char.ofNat ((b - 0xF0) * 0x40000 + (b1 - 0x80) * 0x1000 +
            (b2 - 0x80) * 0x40 + (b3 - 0x80)) :: cs)
    else none
  | _ => none

end

/-- `buf.split(b"\r\n\r\n")` (no maxsplit): split a byte list at every
non-overlapping occurrence of `13,10,13,10`, scanning left to right. -/
def splitCRLF2 (acc : List Nat) : List Nat → List (List Nat)
  | 13 :: 10 :: 13 :: 10 :: rest => acc :: splitCRLF2 [] rest
  | x :: rest => splitCRLF2 (acc ++ [x]) rest
  | [] => [acc]

/-- Whether the byte pattern `13,10,13,10` occurs in a byte list. -/
def hasCRLF2 : List Nat → Bool
  | 13 :: 10 :: 13 :: 10 :: _ => true
  | _ :: rest => hasCRLF2 rest
  | [] => false

/-- `bytes.splitlines()`: break at `\r\n`, lone `\r` or lone `\n`; a trailing
break produces no empty final line; the empty byte string has no lines. -/
def splitLinesBAux (acc : List Nat) : List Nat → List (List Nat)
  | [] => [acc]
  | 13 :: 10 :: rest =>
    acc :: (match rest with | [] => [] | r => splitLinesBAux [] r)
  | 13 :: rest =>
    acc :: (match rest with | [] => [] | r => splitLinesBAux [] r)
  | 10 :: rest =>
    acc :: (match rest with | [] => [] | r => splitLinesBAux [] r)
  | x :: rest => splitLinesBAux (acc ++ [x]) rest

def splitLinesB : List Nat → List (List Nat)
  | [] => []
  | l => splitLinesBAux [] l

/-- `str.splitlines()` over a character list, with the same line breaks the
embedded headers can contain (`\r\n`, `\r`, `\n`). -/
def splitLinesCAux (acc : List Char) : List Char → List (List Char)
  | [] => [acc]
  | '\r' :: '\n' :: rest =>
    acc :: (match rest with | [] => [] | r => splitLinesCAux [] r)
  | '\r' :: rest =>
    acc :: (match rest with | [] => [] | r => splitLinesCAux [] r)
  | '\n' :: rest =>
    acc :: (match rest with | [] => [] | r => splitLinesCAux [] r)
  | x :: rest => splitLinesCAux (acc ++ [x]) rest

def splitLinesC : List Char → List (List Char)
  | [] => []
  | l => splitLinesCAux [] l

/-- The literal `"Content-Length: "` that the three regexes of the repository
share (spelled as an explicit character list; `clPat_spell` below checks the
spelling). -/
def clPat : List Char :=
  ['C', 'o', 'n', 't', 'e', 'n', 't', '-', 'L', 'e', 'n', 'g', 't', 'h', ':',
   ' ']

/-- The `startsSep` discriminator: whether a byte list begins with the
`\r\n\r\n` frame separator (the first pattern of `splitCRLF2` and
`hasCRLF2`). -/
def startsSep : List Nat → Bool
  | 13 :: 10 :: 13 :: 10 :: _ => true
  | _ => false

/-- `re.match(r"Content-Length: (\d+)", line)` — anchored at the start of the
line, capture of one or more digits — returning `int(group(1))`. -/
def reMatchCL (line : List Char) : Option Nat :=
  if clPat.isPrefixOf line then
    let ds := (line.drop clPat.length).takeWhile Char.isDigit
    if ds.isEmpty then none else some (digitsVal ds)
  else none

/-- `re.findall(r"Content-Length: (\d*)", header)`: scan for non-overlapping
occurrences anywhere in the header, each capture being a possibly empty run of
digits; the scan resumes after the matched text. -/
def findCLAux : Nat → List Char → List (List Char)
  | 0, _ => []
  | _, [] => []
  | fuel + 1, c :: rest =>
    if clPat.isPrefixOf (c :: rest) then
      let after := (c :: rest).drop clPat.length
      let ds := after.takeWhile Char.isDigit
      ds :: findCLAux fuel (after.drop ds.length)
    else findCLAux fuel rest

def findCLMatches (l : List Char) : List (List Char) := findCLAux l.length l

/-! ## Framing codec of `src/editing_tools/server/rpc.py` -/

/-- `encode(data)` : the header is `"Content-Length: %s" % (len(data))` — note
`len` of a `str`, the character count — encoded as ASCII, then `\r\n\r\n`,
then the UTF-8 encoded body. -/
def encodeRPC (data : String) : List Nat :=
  (clPat ++ natDecimal data.length).map Char.toNat ++ [13, 10, 13, 10] ++
    strUtf8 data

/-- The framing contract as §4.1 of the specification words it: the
`Content-Length` header holds the byte length of the UTF-8-encoded body.
Stated only for comparison with `encodeRPC`. -/
def specEncode (data : String) : List Nat :=
  (clPat ++ natDecimal (strUtf8 data).length).map Char.toNat ++
    [13, 10, 13, 10] ++ strUtf8 data

inductive CLResult where
  | ok (n : Nat)
  | invalid
  | valueErr
deriving DecidableEq

/-- `_get_contentlength(header)`: `re.findall` must produce exactly one match
(else `ContentInvalid`); `int` of an empty capture raises `ValueError`. -/
def getContentLength (h : List Char) : CLResult :=
  match findCLMatches h with
  | [d] => if d.isEmpty then .valueErr else .ok (digitsVal d)
  | _ => .invalid

inductive DecodeResult where
  | ok (body : String)
  | contentInvalid
  | contentIncomplete
  | contentOverflow
  | unicodeErr
  | valueErr
deriving DecidableEq

/-- `decode(data)` of `src/editing_tools/server/rpc.py`:
`_get_head_and_body` splits on `\r\n\r\n` and requires exactly two parts
(else `ContentInvalid`), decoding the head as ASCII and the body as UTF-8
(a `UnicodeDecodeError` propagates); then the declared length is compared
with `len(body)` — the character count of the decoded body string. -/
def rpcDecode (data : List Nat) : DecodeResult :=
  match splitCRLF2 [] data with
  | [h, b] =>
    match asciiDecode h with
    | none => .unicodeErr
    | some hchars =>
      match utf8DecodeBytes b with
      | none => .unicodeErr
      | some bchars =>
        match getContentLength hchars with
        | .invalid => .contentInvalid
        | .valueErr => .valueErr
        | .ok clen =>
          if bchars.length < clen then .contentIncomplete
          else if bchars.length > clen then .contentOverflow
          else .ok (String.mk bchars)
  | _ => .contentInvalid

/-! ## `TransportMessage.from_bytes` of `src/server/app.py` -/

inductive TMResult where
  | ok (message : String)
  | headerErr
  | clErr
  | incomplete
  | overflow
  | unicodeErr
deriving DecidableEq

inductive CLScan where
  | found (n : Nat)
  | nofind
  | unicodeFail
deriving DecidableEq

/-- The header loop of `TransportMessage.from_bytes`: decode each line as
ASCII (a failure propagates), `re.match` it against
`Content-Length: (\d+)`, and stop at the first matching line. -/
def tmScanCL : List (List Nat) → CLScan
  | [] => .nofind
  | line :: rest =>
    match asciiDecode line with
    | none => .unicodeFail
    | some lc =>
      match reMatchCL lc with
      | some n => .found n
      | none => tmScanCL rest

def tmDecodeBody (body : List Nat) : TMResult :=
  match utf8DecodeBytes body with
  | some cs => .ok (String.mk cs)
  | none => .unicodeErr

/-- `TransportMessage.from_bytes(buf)`: split on `\r\n\r\n` into exactly one
head and one body (else `ValueError`); scan the head lines for the first
`Content-Length` match; a value of `0` — or no match — fails the
`if not _content_length` test; then compare `len(body)` (bytes) against the
declared length.  The source tests `body_len < _content_length` twice
(`src/server/app.py` lines 114 and 118), so the second, overflow-raising
branch can never be taken and an oversized body falls through to
`return cls(body.decode())`. -/
def tmFromBytes (buf : List Nat) : TMResult :=
  match splitCRLF2 [] buf with
  | [head, body] =>
    match tmScanCL (splitLinesB head) with
    | .unicodeFail => .unicodeErr
    | .nofind => .clErr
    | .found cl =>
      if cl = 0 then .clErr
      else if body.length ≠ cl then
        if body.length < cl then .incomplete
        else if body.length < cl then .overflow
        else tmDecodeBody body
      else tmDecodeBody body
  | _ => .headerErr

/-- `TransportMessage.to_bytes` of `src/server/app.py`: the header carries
`len(message.encode())` — the UTF-8 byte length. -/
def tmToBytes (message : String) : List Nat :=
  (clPat ++ natDecimal (strUtf8 message).length).map Char.toNat ++
    [13, 10, 13, 10] ++ strUtf8 message

/-! ## `RPCMessage.from_bytes` and the client `request` loop of
`src/api/transport.py` -/

inductive TFBResult where
  | ok (msg : JValue)
  | headerErr
  | clErr
  | incomplete
  | overflowNameErr
  | jsonNameErr
  | typeErr

/-- `RPCMessage.get_content_length(header)`: `re.match` each line of the
header string, return the first match, raise `ValueError` when none
matches. -/
def clScanC : List (List Char) → Option Nat
  | [] => none
  | line :: rest =>
    match reMatchCL line with
    | some n => some n
    | none => clScanC rest

/-- `RPCMessage.from_bytes(b)` of `src/api/transport.py`.  The size
comparisons are the correct `<` / `>` pair, but the overflow branch raises
`ContentOverflow`, a name that is not defined (the class is spelled
`ContentOverlow`), so it raises `NameError` (`overflowNameErr`); the JSON
failure branch references an undefined `LOGGER`, so it too raises
`NameError` (`jsonNameErr`, which also absorbs a `UnicodeDecodeError` of
`content.decode()` because the `try` block catches every `Exception` before
reaching the `raise`).  `json.loads` is the oracle `jsonP`; a non-object
result makes `cls(message)` raise `TypeError`. -/
def transportFromBytes (jsonP : String → Option JValue) (b : List Nat) :
    TFBResult :=
  match splitCRLF2 [] b with
  | [header, content] =>
    match asciiDecode header with
    | none => .headerErr
    | some hchars =>
      match clScanC (splitLinesC hchars) with
      | none => .clErr
      | some cl =>
        if content.length < cl then .incomplete
        else if content.length > cl then .overflowNameErr
        else
          match utf8DecodeBytes content with
          | none => .jsonNameErr
          | some cs =>
            match jsonP (String.mk cs) with
            | some (.obj kvs) => .ok (.obj kvs)
            | some _ => .typeErr
            | none => .jsonNameErr
  | _ => .headerErr

/-- One `sock.recv` observation in the client read loop: a chunk of bytes or
a `socket.timeout`. -/
inductive RecvEvent where
  | chunk (bs : List Nat)
  | timeout

inductive ClientOutcome where
  | response (v : JValue)
  | raised (e : String)

/-- The response the `except socket.timeout` branch of `request` builds:
`RPCMessage.response(RPCErrorMessage(code=5000, message="request timedout"))`
— the error object is passed positionally, that is as the `result`
argument. -/
def timeoutResp : JValue := rpcResponse (rpcErrorMessage 5000 "request timedout") .null

/-- The `while True` read loop of `request` in `src/api/transport.py`: recv,
append to the buffer, try `from_bytes`; `ContentIncomplete` restarts the loop
(skipping the short-read break test), every other decode failure propagates
to the caller; on success the loop breaks only when the chunk was shorter
than the buffer size.  `none` means the event script ran out (the real socket
would keep blocking). -/
def clientLoop (jsonP : String → Option JValue) (bufSize : Nat) :
    List RecvEvent → List Nat → Option ClientOutcome
  | [], _ => none
  | .timeout :: _, _ => some (.response timeoutResp)
  | .chunk bs :: rest, buffer =>
    match transportFromBytes jsonP (buffer ++ bs) with
    | .incomplete => clientLoop jsonP bufSize rest (buffer ++ bs)
    | .ok v =>
      if bs.length < bufSize then some (.response v)
      else clientLoop jsonP bufSize rest (buffer ++ bs)
    | .headerErr => some (.raised "ValueError")
    | .clErr => some (.raised "ValueError")
    | .overflowNameErr => some (.raised "NameError")
    | .jsonNameErr => some (.raised "NameError")
    | .typeErr => some (.raised "TypeError")

/-! ## The analysis server of `src/server/app.py` -/

def INTERNAL_ERROR : Int := 5001
def INPUT_ERROR : Int := 5002
def METHOD_ERROR : Int := 5004
def PARAM_ERROR : Int := 5005
def NOT_INITIALIZED : Int := 5006

/-- Outcome of calling into the jedi completion / hover backend together with
its `*_to_rpc` conversion: a result value, a `ValueError` (handled with an
`INPUT_ERROR` response), or any other exception. -/
inductive BackendResult where
  | ok (v : JValue)
  | valueError (m : String)
  | exc (m : String)

/-- Outcome of `black_service.format_code` + `changes_to_rpc`:
`black_service.InvalidInput` is handled with an `INPUT_ERROR` response. -/
inductive FmtResult where
  | ok (v : JValue)
  | invalidInput (m : String)
  | exc (m : String)

/-- Outcome of the diagnostic block (file read + pyflakes + conversion): the
handler catches every exception itself. -/
inductive DiagResult where
  | ok (v : JValue)
  | exc (m : String)

/-- External collaborators of the server: `os.chdir` success, the four
backend calls, and the module-level capability flags (the import guards at
the top of `src/server/app.py`). -/
structure Env where
  chdirOk : JValue → Bool
  complete : JValue → JValue → JValue → BackendResult
  hover : JValue → JValue → JValue → BackendResult
  fmtRun : JValue → FmtResult
  diagRun : JValue → JValue → DiagResult
  capCompletion : Bool
  capHover : Bool
  capFormatting : Bool
  capDiagnostic : Bool

/-- `self.server_capability`. -/
def capabilityMap (env : Env) : JValue :=
  .obj [("document_completion", .bool env.capCompletion),
        ("document_hover", .bool env.capHover),
        ("document_formatting", .bool env.capFormatting),
        ("document_publish_diagnostic", .bool env.capDiagnostic)]

/-- `self.project_settings` (a dict) and `self._terminate`. -/
structure ServerState where
  projectSettings : List (String × JValue)
  terminate : Bool

/-- The state `Server.__init__` builds: empty `project_settings`,
`_terminate = False`. -/
def freshState : ServerState := { projectSettings := [], terminate := false }

/-- What a Python handler invocation produces, as seen by `handle_message`:
a `ResponseParams` object (which has `to_str`), a plain value without
`to_str` (the `ping` echo), a bare `return` (`None`), or a raised
`ParamError` / `InitializeError` / other exception. -/
inductive PyResult where
  | resp (v : JValue)
  | raw (v : JValue)
  | retNone
  | excParam (m : String)
  | excInit (m : String)
  | excOther (m : String)

/-- `Server.ping`: returns `params` itself — a plain decoded JSON value, not
a `ResponseParams`. -/
def pingH (st : ServerState) (params : JValue) : ServerState × PyResult :=
  (st, .raw params)

/-- `Server.shutdown`: set `_terminate` and return an empty
`ResponseParams()`. -/
def shutdownH (st : ServerState) : ServerState × PyResult :=
  ({ st with terminate := true }, .resp (responseParams .null .null))

/-- The `workspace_path` computation of `Server.initialize`:
`params["workspace"]["path"]` then `os.chdir` under a bare `except` that
falls back to the empty string. -/
def initWorkspacePath (env : Env) (params : JValue) : JValue :=
  match params with
  | .obj kvs =>
    match jlookup kvs "workspace" with
    | some (.obj wkvs) =>
      match jlookup wkvs "path" with
      | some p => if env.chdirOk p then p else .str ""
      | none => .str ""
    | _ => .str ""
  | _ => .str ""

/-- `Server.initialize`: record the workspace (empty string when the lookup
or `chdir` failed) and answer the capability map.  Never raises. -/
def initProjectH (env : Env) (st : ServerState) (params : JValue) :
    ServerState × PyResult :=
  ({ st with projectSettings :=
      jsetKey st.projectSettings "workspace" (initWorkspacePath env params) },
   .resp (responseParams (capabilityMap env) .null))

/-- `Server.change_workspace`: a missing `"path"` key raises `ParamError`
(only `KeyError` is converted; indexing a non-dict raises `TypeError`, which
propagates to the generic handler); reading
`self.project_settings["workspace"]` on an uninitialized server raises
`KeyError` (uncaught); a path equal to the cached workspace hits the bare
`return` — the handler returns `None`; otherwise `os.chdir` failure yields an
`INPUT_ERROR` response and success updates the cache. -/
def changeWorkspaceH (env : Env) (st : ServerState) (params : JValue) :
    ServerState × PyResult :=
  match params with
  | .obj kvs =>
    match jlookup kvs "path" with
    | none => (st, .excParam "unable get 'path'")
    | some path =>
      match jlookup st.projectSettings "workspace" with
      | none => (st, .excOther "KeyError: 'workspace'")
      | some ws =>
        if jeq path ws then (st, .retNone)
        else if env.chdirOk path then
          ({ st with projectSettings :=
              jsetKey st.projectSettings "workspace" path },
           .resp (responseParams .null .null))
        else
          (st, .resp (responseParams .null
            (responseError INPUT_ERROR "chdir failed")))
  | _ => (st, .excOther "TypeError: params not subscriptable")

/-- `Server.exit`: reset `project_settings` to the empty dict and return an
empty `ResponseParams()`.  It does not touch `_terminate`. -/
def exitH (st : ServerState) : ServerState × PyResult :=
  ({ st with projectSettings := [] }, .resp (responseParams .null .null))

/-- `Server.document_completion`: `InitializeError` when `project_settings`
is empty; any failure extracting `source` / `row` / `column` raises
`ParamError` (the handler converts every exception there); then the backend
call, whose `ValueError` becomes an `INPUT_ERROR` response. -/
def docCompletionH (env : Env) (st : ServerState) (params : JValue) :
    ServerState × PyResult :=
  if st.projectSettings.isEmpty then
    (st, .excInit "project not initialized")
  else
    match params with
    | .obj kvs =>
      match jlookup kvs "source", jlookup kvs "row", jlookup kvs "column" with
      | some src, some row, some col =>
        match env.complete src row col with
        | .ok result => (st, .resp (responseParams result .null))
        | .valueError m =>
          (st, .resp (responseParams .null (responseError INPUT_ERROR m)))
        | .exc m => (st, .excOther m)
      | _, _, _ => (st, .excParam "unable get param")
    | _ => (st, .excParam "error: params not subscriptable")

/-- `Server.document_hover`: same shape as completion. -/
def docHoverH (env : Env) (st : ServerState) (params : JValue) :
    ServerState × PyResult :=
  if st.projectSettings.isEmpty then
    (st, .excInit "project not initialized")
  else
    match params with
    | .obj kvs =>
      match jlookup kvs "source", jlookup kvs "row", jlookup kvs "column" with
      | some src, some row, some col =>
        match env.hover src row col with
        | .ok result => (st, .resp (responseParams result .null))
        | .valueError m =>
          (st, .resp (responseParams .null (responseError INPUT_ERROR m)))
        | .exc m => (st, .excOther m)
      | _, _, _ => (st, .excParam "unable get param")
    | _ => (st, .excParam "error: params not subscriptable")

/-- `Server.document_formatting`. -/
def docFormattingH (env : Env) (st : ServerState) (params : JValue) :
    ServerState × PyResult :=
  if st.projectSettings.isEmpty then
    (st, .excInit "project not initialized")
  else
    match params with
    | .obj kvs =>
      match jlookup kvs "source" with
      | some src =>
        match env.fmtRun src with
        | .ok result => (st, .resp (responseParams result .null))
        | .invalidInput m =>
          (st, .resp (responseParams .null (responseError INPUT_ERROR m)))
        | .exc m => (st, .excOther m)
      | none => (st, .excParam "unable get 'source'")
    | _ => (st, .excParam "error: params not subscriptable")

/-- `Server.document_publish_diagnostic`: `params.get("source")` never
raises, `params["path"]` raises toward `ParamError`; the analysis block
catches every exception itself and answers `INTERNAL_ERROR` directly. -/
def docDiagnosticH (env : Env) (st : ServerState) (params : JValue) :
    ServerState × PyResult :=
  if st.projectSettings.isEmpty then
    (st, .excInit "project not initialized")
  else
    match params with
    | .obj kvs =>
      match jlookup kvs "path" with
      | some path =>
        match env.diagRun ((jlookup kvs "source").getD .null) path with
        | .ok result => (st, .resp (responseParams result .null))
        | .exc m =>
          (st, .resp (responseParams .null (responseError INTERNAL_ERROR m)))
      | none => (st, .excParam "unable get 'path'")
    | _ => (st, .excParam "error: params not subscriptable")

inductive Method where
  | ping
  | shutdown
  | initProj
  | changeWs
  | exitCmd
  | docCompletion
  | docHover
  | docFormatting
  | docDiagnostic
deriving DecidableEq

/-- `self.service_map`: the dispatch table of `Server.__init__`. -/
def serviceMap (m : String) : Option Method :=
  if m = "ping" then some .ping
  else if m = "shutdown" then some .shutdown
  else if m = "initialize" then some .initProj
  else if m = "change_workspace" then some .changeWs
  else if m = "exit" then some .exitCmd
  else if m = "document_completion" then some .docCompletion
  else if m = "document_hover" then some .docHover
  else if m = "document_formatting" then some .docFormatting
  else if m = "document_publish_diagnostic" then some .docDiagnostic
  else none

def runHandler (env : Env) (st : ServerState) (m : Method) (params : JValue) :
    ServerState × PyResult :=
  match m with
  | .ping => pingH st params
  | .shutdown => shutdownH st
  | .initProj => initProjectH env st params
  | .changeWs => changeWorkspaceH env st params
  | .exitCmd => exitH st
  | .docCompletion => docCompletionH env st params
  | .docHover => docHoverH env st params
  | .docFormatting => docFormattingH env st params
  | .docDiagnostic => docDiagnosticH env st params

/-- The dispatcher either sends back a response object or lets an exception
escape `handle_message` (to be caught by `request_handler`). -/
inductive Outcome where
  | reply (resp : JValue)
  | escaped (m : String)

/-- The `try` block of `handle_message` around `result = func(params)` and
`message = result.to_str()`: a `ResponseParams` result serializes;
`result.to_str()` on a plain value or on `None` raises `AttributeError`,
handled by the blanket `except Exception`; `ParamError` → `PARAM_ERROR`,
`InitializeError` → `NOT_INITIALIZED`, anything else → `INTERNAL_ERROR`. -/
def dispatchResult (r : ServerState × PyResult) : ServerState × Outcome :=
  match r.2 with
  | .resp v => (r.1, .reply v)
  | .raw _ =>
    (r.1, .reply (responseParams .null (responseError INTERNAL_ERROR
      "AttributeError: object has no attribute to_str")))
  | .retNone =>
    (r.1, .reply (responseParams .null (responseError INTERNAL_ERROR
      "AttributeError: NoneType object has no attribute to_str")))
  | .excParam m =>
    (r.1, .reply (responseParams .null (responseError PARAM_ERROR m)))
  | .excInit m =>
    (r.1, .reply (responseParams .null (responseError NOT_INITIALIZED m)))
  | .excOther m =>
    (r.1, .reply (responseParams .null (responseError INTERNAL_ERROR m)))

/-- `Server.handle_message`, after `json.loads`: extract `method` and
`params` (a `KeyError` becomes `INPUT_ERROR`), look the method up in
`service_map` (a `KeyError` becomes `METHOD_ERROR`), run the handler and
serialize its result.  `ParamError` → `PARAM_ERROR`, `InitializeError` →
`NOT_INITIALIZED`, anything else — including `result.to_str()` failing when
the handler returned `None` or a plain value — → `INTERNAL_ERROR`.  A
non-object message makes `RPC(dict(...))` raise `TypeError` before the first
`try`, and an unhashable method value makes `service_map[method]` raise
`TypeError` outside the caught `KeyError`: both escape `handle_message`. -/
def handleMessage (env : Env) (st : ServerState) (msg : JValue) :
    ServerState × Outcome :=
  match msg with
  | .obj kvs =>
    match jlookup kvs "method" with
    | none =>
      (st, .reply (responseParams .null
        (responseError INPUT_ERROR "invalid RPC, unable get 'method'")))
    | some methodV =>
      match jlookup kvs "params" with
      | none =>
        (st, .reply (responseParams .null
          (responseError INPUT_ERROR "invalid RPC, unable get 'params'")))
      | some params =>
        match methodV with
        | .arr _ => (st, .escaped "TypeError: unhashable method")
        | .obj _ => (st, .escaped "TypeError: unhashable method")
        | .str m =>
          match serviceMap m with
          | none =>
            (st, .reply (responseParams .null
              (responseError METHOD_ERROR
                ("method not found '" ++ m ++ "'"))))
          | some meth => dispatchResult (runHandler env st meth params)
        | _ =>
          (st, .reply (responseParams .null
            (responseError METHOD_ERROR "method not found")))
  | _ => (st, .escaped "TypeError: message is not a dict")

/-- The tail of `Server.request_handler`: after `sendall`, the process calls
`sys.exit(EXIT_SUCCESS)` exactly when `_terminate` is set. -/
def exitAfterSend (st : ServerState) : Option Nat :=
  if st.terminate then some 0 else none

/-- A request body `\x7b"method": m, "params": p\x7d`. -/
def mkRequest (m : String) (p : JValue) : JValue :=
  .obj [("method", .str m), ("params", p)]

/-- The error code carried by a dispatch outcome, when the outcome is an
error response. -/
def outcomeErrorCode : Outcome → Option Int
  | .reply v => getErrorCode v
  | .escaped _ => none

/-- A concrete environment for witnesses: `chdir` always succeeds and every
backend returns an empty candidate list. -/
def trivEnv : Env :=
  { chdirOk := fun _ => true
    complete := fun _ _ _ => .ok (.arr [])
    hover := fun _ _ _ => .ok (.arr [])
    fmtRun := fun _ => .ok (.arr [])
    diagRun := fun _ _ => .ok (.arr [])
    capCompletion := true
    capHover := true
    capFormatting := true
    capDiagnostic := true }

/-- A server state whose cached workspace is `"/w"`. -/
def wsState : ServerState :=
  { projectSettings := [("workspace", .str "/w")], terminate := false }

/-! ## The v2 dispatcher of `src/editing_tools/server/server.py` -/

def PARSE_ERROR : Int := -32700
def INVALID_REQUEST : Int := -32600
def METHOD_NOT_FOUND : Int := -32601
def INVALID_PARAMS : Int := -32602
def V2_INTERNAL_ERROR : Int := -32603

/-- What a registered v2 command can produce: `complete`, `hover`,
`change_workspace_config` and `format_` convert every failure into
`InvalidParams` or `InternalError` before raising. -/
inductive V2Run where
  | ok (v : JValue)
  | invalidParams
  | internalError

/-- The v2 server's registered command names and the oracle running them. -/
structure V2Env where
  commands : List String
  run : String → JValue → V2Run

/-- `ResponseError(code).error` of the v2 rpc module with its default empty
message. -/
def v2Error (code : Int) : JValue :=
  .obj [("code", .num code), ("message", .str "")]

/-- `Server.process` of `src/editing_tools/server/server.py`, taken after
`json.loads` (`parsed = none` models a `json.JSONDecodeError`, turned into
`ParseError` by `RequestMessage.parse`).  `pid` starts at `-1` and is
replaced before dispatch; a falsy `id` raises `IDInvalidError` and a falsy
`method` — missing, the empty string, or any other falsy value — raises
`MethodInvalidError` inside the `req_msg.method` property (`if not method_`),
both answered with `INVALID_REQUEST`; an unregistered (truthy, string)
method raises `MethodNotFound`, answered with the `METHOD_NOT_FOUND` code;
handler failures map to `INVALID_PARAMS` / `-32603`.  A non-object JSON
value makes `Message.__init__`'s `dict.update` raise `TypeError`, and a
truthy unhashable method value makes `command.get` raise `TypeError`: both
escape `process`. -/
def v2Process (env : V2Env) (parsed : Option JValue) : Outcome :=
  match parsed with
  | none => .reply (responseMessageCreate (.num (-1)) .null (v2Error PARSE_ERROR))
  | some (.obj kvs) =>
    let pid := (jlookup kvs "id").getD .null
    if !jtruthy pid then
      .reply (responseMessageCreate (.num (-1)) .null (v2Error INVALID_REQUEST))
    else
      let mv := (jlookup kvs "method").getD .null
      if !jtruthy mv then
        .reply (responseMessageCreate pid .null (v2Error INVALID_REQUEST))
      else
        match mv with
        | .arr _ => .escaped "TypeError: unhashable method"
        | .obj _ => .escaped "TypeError: unhashable method"
        | .str m =>
          let params := (jlookup kvs "params").getD .null
          if env.commands.contains m then
            match env.run m params with
            | .ok results =>
              .reply (responseMessageCreate pid results (v2Error 0))
            | .invalidParams =>
              .reply (responseMessageCreate pid .null (v2Error INVALID_PARAMS))
            | .internalError =>
              .reply (responseMessageCreate pid .null
                (v2Error V2_INTERNAL_ERROR))
          else
            .reply (responseMessageCreate pid .null (v2Error METHOD_NOT_FOUND))
        | _ =>
          .reply (responseMessageCreate pid .null (v2Error METHOD_NOT_FOUND))
  | some _ => .escaped "TypeError: message is not a dict"

/-- A concrete v2 server for witnesses: only `ping` is registered. -/
def trivV2Env : V2Env :=
  { commands := ["ping"], run := fun _ p => .ok p }

/-! ## Helper lemmas: framing primitives -/

theorem clPat_spell : clPat = "Content-Length: ".data := by decide

theorem startsSep_false_of_ne13 (x : Nat) (rest : List Nat) (hx : x ≠ 13) :
    startsSep (x :: rest) = false := by
  rw [startsSep.eq_def]
  split
  · rename_i heq
    injection heq with h1 _
    exact absurd h1 hx
  · rfl

theorem splitCRLF2_sep (acc tail : List Nat) :
    splitCRLF2 acc (13 :: 10 :: 13 :: 10 :: tail) = acc :: splitCRLF2 [] tail :=
  rfl

theorem splitCRLF2_cons_f (acc : List Nat) (x : Nat) (rest : List Nat)
    (h : startsSep (x :: rest) = false) :
    splitCRLF2 acc (x :: rest) = splitCRLF2 (acc ++ [x]) rest := by
  rw [splitCRLF2.eq_def]
  split
  · rename_i a b heq
    rw [heq] at h
    simp [startsSep] at h
  · rename_i a x' rest' heq h1
    injection h1 with e1 e2
    subst e1; subst e2
    rfl
  · rename_i a heq
    simp at heq

theorem hasCRLF2_cons_f (x : Nat) (rest : List Nat)
    (h : startsSep (x :: rest) = false) :
    hasCRLF2 (x :: rest) = hasCRLF2 rest := by
  rw [hasCRLF2.eq_def]
  split
  · rename_i a b heq
    rw [heq] at h
    simp [startsSep] at h
  · rename_i a x' rest' heq h1
    injection h1 with e1 e2
    subst e2
    rfl
  · rename_i a heq
    simp at heq

theorem hasCRLF2_of_starts (l : List Nat) (h : startsSep l = true) :
    hasCRLF2 l = true := by
  rw [startsSep.eq_def] at h
  split at h
  · rfl
  · exact absurd h (by simp)

theorem splitCRLF2_header (h : List Nat) (tail : List Nat) :
    ∀ acc, (∀ x ∈ h, x ≠ 13) →
      splitCRLF2 acc (h ++ (13 :: 10 :: 13 :: 10 :: tail)) =
        (acc ++ h) :: splitCRLF2 [] tail := by
  induction h with
  | nil => intro acc _; simp [splitCRLF2_sep]
  | cons x h' ih =>
    intro acc hall
    have hx : x ≠ 13 := hall x (by simp)
    rw [List.cons_append, splitCRLF2_cons_f _ _ _ (startsSep_false_of_ne13 _ _ hx),
      ih _ (fun y hy => hall y (by simp [hy]))]
    simp

theorem splitCRLF2_noSep (b : List Nat) :
    ∀ acc, hasCRLF2 b = false → splitCRLF2 acc b = [acc ++ b] := by
  induction b with
  | nil => intro acc _; simp [splitCRLF2]
  | cons x rest ih =>
    intro acc hb
    by_cases hs : startsSep (x :: rest) = true
    · rw [hasCRLF2_of_starts _ hs] at hb; exact absurd hb (by simp)
    · rw [Bool.not_eq_true] at hs
      rw [splitCRLF2_cons_f _ _ _ hs,
        ih _ (by rw [hasCRLF2_cons_f _ _ hs] at hb; exact hb)]
      simp

/-! ## Helper lemmas: decimal digits -/

theorem digitOfNat_spec (d : Nat) (h : d < 10) :
    (Char.ofNat (48 + d)).toNat = 48 + d ∧ (Char.ofNat (48 + d)).isDigit = true := by
  interval_cases d <;> exact ⟨by decide, by decide⟩

theorem digitsVal_append (ds : List Char) (c : Char) :
    digitsVal (ds ++ [c]) = digitsVal ds * 10 + (c.toNat - 48) := by
  simp [digitsVal, List.foldl_append]

theorem natDecimalAux_spec (fuel : Nat) : ∀ n, n < fuel →
    digitsVal (natDecimalAux fuel n) = n ∧
    natDecimalAux fuel n ≠ [] ∧
    ∀ c ∈ natDecimalAux fuel n, c.isDigit = true ∧ c.toNat < 128 ∧ c.toNat ≠ 13 := by
  induction fuel with
  | zero => intro n hn; omega
  | succ fuel ih =>
    intro n hn
    by_cases h10 : n < 10
    · rw [natDecimalAux, if_pos h10]
      have hd := digitOfNat_spec n h10
      refine ⟨by simp [digitsVal, hd.1], by simp, ?_⟩
      intro c hc
      simp at hc
      subst hc
      exact ⟨hd.2, by omega, by omega⟩
    · rw [natDecimalAux, if_neg h10]
      have hrec : n / 10 < fuel := by omega
      obtain ⟨hv, hne, hdig⟩ := ih (n / 10) hrec
      have hd := digitOfNat_spec (n % 10) (by omega)
      refine ⟨?_, by simp, ?_⟩
      · rw [digitsVal_append, hv, hd.1]
        omega
      · intro c hc
        rcases List.mem_append.1 hc with hc | hc
        · exact hdig c hc
        · simp at hc
          subst hc
          exact ⟨hd.2, by omega, by omega⟩

theorem natDecimal_spec (n : Nat) :
    digitsVal (natDecimal n) = n ∧ natDecimal n ≠ [] ∧
    ∀ c ∈ natDecimal n, c.isDigit = true ∧ c.toNat < 128 ∧ c.toNat ≠ 13 :=
  natDecimalAux_spec (n + 1) n (by omega)

/-! ## Helper lemmas: text encodings -/

theorem char_toNat_lt (c : Char) : c.toNat < 1114112 := by
  have h := c.valid
  rcases h with h | ⟨h1, h2⟩ <;> simp [Char.toNat] <;> omega

theorem asciiDecode_map (cs : List Char) (h : ∀ c ∈ cs, c.toNat < 128) :
    asciiDecode (cs.map Char.toNat) = some cs := by
  induction cs with
  | nil => rfl
  | cons c cs ih =>
    rw [List.map_cons, asciiDecode, if_pos (h c (by simp)),
      ih (fun x hx => h x (by simp [hx]))]
    simp [Char.ofNat_toNat]

theorem utf8DecodeBytes_cons (b : Nat) (rest : List Nat) :
    utf8DecodeBytes (b :: rest) =
      if b < 0x80 then (utf8DecodeBytes rest).map (fun cs => Char.ofNat b :: cs)
      else if b < 0xC2 then none
      else if b < 0xE0 then utf8Decode2 b rest
      else if b < 0xF0 then utf8Decode3 b rest
      else if b < 0xF5 then utf8Decode4 b rest
      else none := by
  rw [utf8DecodeBytes]

theorem utf8_decode_encode_cons (c : Char) (rest : List Nat) (res : List Char)
    (h : utf8DecodeBytes rest = some res) :
    utf8DecodeBytes (utf8EncodeChar c.toNat ++ rest) = some (c :: res) := by
  have hub : c.toNat < 1114112 := char_toNat_lt c
  have hofn : Char.ofNat c.toNat = c := Char.ofNat_toNat c
  generalize hn : c.toNat = n at *
  by_cases h1 : n < 0x80
  · rw [utf8EncodeChar, if_pos h1, List.cons_append, List.nil_append,
      utf8DecodeBytes_cons, if_pos h1, h]
    simp [hofn]
  · by_cases h2 : n < 0x800
    · rw [utf8EncodeChar, if_neg h1, if_pos h2, List.cons_append, List.cons_append,
        List.nil_append, utf8DecodeBytes_cons,
        if_neg (by omega), if_neg (by omega), if_pos (by omega),
        utf8Decode2, if_pos (⟨by omega, by omega⟩ :
          0x80 ≤ 0x80 + n % 0x40 ∧ 0x80 + n % 0x40 < 0xC0), h]
      have e2 : n / 64 * 64 + n % 64 = n := by omega
      simp [e2, hofn]
    · by_cases h3 : n < 0x10000
      · rw [utf8EncodeChar, if_neg h1, if_neg h2, if_pos h3, List.cons_append,
          List.cons_append, List.cons_append, List.nil_append, utf8DecodeBytes_cons,
          if_neg (by omega), if_neg (by omega), if_neg (by omega), if_pos (by omega),
          utf8Decode3, if_pos (⟨⟨by omega, by omega⟩, by omega, by omega⟩ :
            (0x80 ≤ 0x80 + n / 0x40 % 0x40 ∧ 0x80 + n / 0x40 % 0x40 < 0xC0) ∧
            (0x80 ≤ 0x80 + n % 0x40 ∧ 0x80 + n % 0x40 < 0xC0)), h]
        have e2 : n / 4096 * 4096 + n / 64 % 64 * 64 + n % 64 = n := by omega
        simp [e2, hofn]
      · rw [utf8EncodeChar, if_neg h1, if_neg h2, if_neg h3, List.cons_append,
          List.cons_append, List.cons_append, List.cons_append, List.nil_append,
          utf8DecodeBytes_cons,
          if_neg (by omega), if_neg (by omega), if_neg (by omega), if_neg (by omega),
          if_pos (by omega),
          utf8Decode4, if_pos (⟨⟨by omega, by omega⟩, ⟨by omega, by omega⟩,
            by omega, by omega⟩ :
            (0x80 ≤ 0x80 + n / 0x1000 % 0x40 ∧ 0x80 + n / 0x1000 % 0x40 < 0xC0) ∧
            (0x80 ≤ 0x80 + n / 0x40 % 0x40 ∧ 0x80 + n / 0x40 % 0x40 < 0xC0) ∧
            (0x80 ≤ 0x80 + n % 0x40 ∧ 0x80 + n % 0x40 < 0xC0)), h]
        have e2 : n / 262144 * 262144 + n / 4096 % 64 * 4096 + n / 64 % 64 * 64 +
            n % 64 = n := by omega
        simp [e2, hofn]

theorem utf8Bytes_decode (cs : List Char) :
    utf8DecodeBytes (utf8Bytes cs) = some cs := by
  induction cs with
  | nil => rfl
  | cons c cs ih => exact utf8_decode_encode_cons c _ _ ih

/-! ## Helper lemmas: header scanning -/

theorem takeWhile_all {α : Type} (p : α → Bool) (l : List α)
    (h : ∀ x ∈ l, p x = true) : l.takeWhile p = l := by
  induction l with
  | nil => rfl
  | cons x l ih =>
    rw [List.takeWhile_cons, h x (by simp), if_pos rfl,
      ih (fun y hy => h y (by simp [hy]))]

theorem findCLAux_nil (fuel : Nat) : findCLAux fuel [] = [] := by
  cases fuel <;> rfl

theorem isPrefixOf_self_append (p t : List Char) : p.isPrefixOf (p ++ t) = true := by
  rw [List.isPrefixOf_iff_prefix]
  exact List.prefix_append p t

theorem findCLAux_clheader (f : Nat) (ds : List Char)
    (hd : ∀ c ∈ ds, c.isDigit = true) :
    findCLAux (f + 1) (clPat ++ ds) = [ds] := by
  have hcons : clPat ++ ds = 'C' :: (clPat.tail ++ ds) := rfl
  rw [hcons, findCLAux, ← hcons, if_pos (isPrefixOf_self_append clPat ds)]
  have hdrop : (clPat ++ ds).drop clPat.length = ds := List.drop_left clPat ds
  simp only [hdrop, takeWhile_all _ _ hd, List.drop_length, findCLAux_nil]

theorem findCLMatches_clheader (ds : List Char)
    (hd : ∀ c ∈ ds, c.isDigit = true) :
    findCLMatches (clPat ++ ds) = [ds] := by
  unfold findCLMatches
  have hlen : (clPat ++ ds).length = (15 + ds.length) + 1 := by
    simp [clPat]
    omega
  rw [hlen, findCLAux_clheader _ _ hd]

theorem getContentLength_clheader (ds : List Char) (hne : ds ≠ [])
    (hd : ∀ c ∈ ds, c.isDigit = true) :
    getContentLength (clPat ++ ds) = .ok (digitsVal ds) := by
  rw [getContentLength, findCLMatches_clheader ds hd]
  simp [hne]

/-! ## Helper lemmas: server dispatch -/

theorem utf8Bytes_ascii (cs : List Char) (h : ∀ c ∈ cs, c.toNat < 128) :
    utf8Bytes cs = cs.map Char.toNat := by
  induction cs with
  | nil => rfl
  | cons c cs ih =>
    rw [utf8Bytes, utf8EncodeChar, if_pos (h c (by simp)),
      ih (fun x hx => h x (by simp [hx]))]
    rfl

theorem jsetKey_isEmpty_false (l : List (String × JValue)) (k : String)
    (v : JValue) : (jsetKey l k v).isEmpty = false := by
  cases l with
  | nil => rfl
  | cons a rest =>
    obtain ⟨k', v'⟩ := a
    rw [jsetKey]
    by_cases h : k' = k
    · rw [if_pos h]; rfl
    · rw [if_neg h]; rfl

theorem completion_not_rejected (env : Env) (st : ServerState) (p : JValue)
    (h : st.projectSettings.isEmpty = false) :
    outcomeErrorCode
        (handleMessage env st (mkRequest "document_completion" p)).2 ≠
      some NOT_INITIALIZED := by
  have hred : handleMessage env st (mkRequest "document_completion" p) =
      dispatchResult (docCompletionH env st p) := rfl
  rw [hred]
  rcases p with _ | b | n | s | xs | kvs
  case obj =>
    rcases h1 : jlookup kvs "source" with _ | src
    · simp [docCompletionH, h, h1, dispatchResult, outcomeErrorCode,
        getErrorCode, responseParams, responseError, jtruthy, jlookup,
        PARAM_ERROR, NOT_INITIALIZED]
    · rcases h2 : jlookup kvs "row" with _ | row
      · simp [docCompletionH, h, h1, h2, dispatchResult, outcomeErrorCode,
          getErrorCode, responseParams, responseError, jtruthy, jlookup,
          PARAM_ERROR, NOT_INITIALIZED]
      · rcases h3 : jlookup kvs "column" with _ | col
        · simp [docCompletionH, h, h1, h2, h3, dispatchResult,
            outcomeErrorCode, getErrorCode, responseParams, responseError,
            jtruthy, jlookup, PARAM_ERROR, NOT_INITIALIZED]
        · rcases hb : env.complete src row col with v | m | m <;>
            simp [docCompletionH, h, h1, h2, h3, hb, dispatchResult,
              outcomeErrorCode, getErrorCode, responseParams, responseError,
              jtruthy, jlookup, INPUT_ERROR, INTERNAL_ERROR, NOT_INITIALIZED]
  all_goals
    simp [docCompletionH, h, dispatchResult, outcomeErrorCode, getErrorCode,
      responseParams, responseError, jtruthy, jlookup, PARAM_ERROR,
      NOT_INITIALIZED]

/-! ## Claims -/

/-- C1.  The claimed decoding trichotomy fails on the code: for
`TransportMessage.from_bytes` (src/server/app.py) an undersized body does
raise the incomplete-retry condition and an exact body is returned unchanged,
but an oversized body is returned as a successful message — the overflow
branch repeats the `<` comparison and is unreachable.  In
`RPCMessage.from_bytes` (src/api/transport.py) the oversized case raises
`NameError` (`ContentOverflow` is a typo for the defined `ContentOverlow`)
rather than the overflow condition; only `decode`
(src/editing_tools/server/rpc.py) raises the overflow condition. -/
theorem C1_overflow_not_raised :
    tmFromBytes (strBytes "Content-Length: 11\r\n\r\nhello wo") = .incomplete ∧
    tmFromBytes (strBytes "Content-Length: 11\r\n\r\nhello world") =
      .ok "hello world" ∧
    tmFromBytes (strBytes "Content-Length: 11\r\n\r\nhello worlds") =
      .ok "hello worlds" ∧
    transportFromBytes (fun _ => none)
      (strBytes "Content-Length: 11\r\n\r\nhello worlds") = .overflowNameErr ∧
    rpcDecode (strBytes "Content-Length: 11\r\n\r\nhello worlds") =
      .contentOverflow := by
  exact ⟨by decide, by decide, by decide, rfl, by decide⟩

/-- C2 (amended).  `decode(encode(s)) = s` holds for every string whose UTF-8
encoding does not contain the `\r\n\r\n` separator bytes; a body containing
the separator makes `_get_head_and_body`'s full split produce more than two
parts, so `decode` raises `ContentInvalid` instead. -/
theorem C2_roundtrip (s : String) (hns : hasCRLF2 (strUtf8 s) = false) :
    rpcDecode (encodeRPC s) = .ok s := by
  obtain ⟨hval, hne, hdig⟩ := natDecimal_spec s.length
  have hclp : ∀ c ∈ clPat, c.toNat < 128 ∧ c.toNat ≠ 13 := by decide
  have hhdrC : ∀ c ∈ clPat ++ natDecimal s.length, c.toNat < 128 ∧ c.toNat ≠ 13 := by
    intro c hc
    rcases List.mem_append.1 hc with hc | hc
    · exact hclp c hc
    · have hcc := hdig c hc
      exact ⟨hcc.2.1, hcc.2.2⟩
  have hno13 : ∀ x ∈ (clPat ++ natDecimal s.length).map Char.toNat, x ≠ 13 := by
    intro x hx
    rcases List.mem_map.1 hx with ⟨c, hc, rfl⟩
    exact (hhdrC c hc).2
  have hsplit : splitCRLF2 [] (encodeRPC s) =
      [(clPat ++ natDecimal s.length).map Char.toNat, strUtf8 s] := by
    have he : encodeRPC s = (clPat ++ natDecimal s.length).map Char.toNat ++
        (13 :: 10 :: 13 :: 10 :: strUtf8 s) := by
      rw [encodeRPC]
      simp
    rw [he, splitCRLF2_header _ _ _ hno13, splitCRLF2_noSep _ _ hns]
    simp
  have hascii : asciiDecode ((clPat ++ natDecimal s.length).map Char.toNat) =
      some (clPat ++ natDecimal s.length) :=
    asciiDecode_map _ (fun c hc => (hhdrC c hc).1)
  have hbody : utf8DecodeBytes (strUtf8 s) = some s.data :=
    utf8Bytes_decode s.data
  have hcl : getContentLength (clPat ++ natDecimal s.length) = .ok s.length := by
    rw [getContentLength_clheader _ hne (fun c hc => (hdig c hc).1), hval]
  rw [rpcDecode, hsplit]
  simp only [hascii, hbody, hcl]
  have hlen : s.data.length = s.length := rfl
  rw [if_neg (by omega), if_neg (by omega)]

/-- Witness for C2: a concrete separator-free body round-trips. -/
theorem C2_roundtrip_witness :
    hasCRLF2 (strUtf8 "hello") = false ∧
    rpcDecode (encodeRPC "hello") = .ok "hello" :=
  ⟨by decide, C2_roundtrip "hello" (by decide)⟩

/-- Counterexample for C2 as stated: the claim allows every character, but a
body containing `\r\n\r\n` does not round-trip — `decode` raises
`ContentInvalid` on it. -/
theorem C2_counterexample :
    rpcDecode (encodeRPC "\r\n\r\n") = .contentInvalid ∧
    rpcDecode (encodeRPC "\r\n\r\n") ≠ .ok "\r\n\r\n" := by
  exact ⟨by decide, by decide⟩

/-- C8 (amended).  `encode` computes `Content-Length` from `len(data)` — the
character count — which agrees with the UTF-8 byte length exactly on ASCII
bodies; the concrete `hello world` frame is produced byte for byte as the
specification shows. -/
theorem C8_ascii_encode :
    (∀ s : String, (∀ c ∈ s.data, c.toNat < 128) → encodeRPC s = specEncode s) ∧
    encodeRPC "hello world" = strBytes "Content-Length: 11\r\n\r\nhello world" := by
  constructor
  · intro s hs
    have hlen : (strUtf8 s).length = s.length := by
      rw [strUtf8, utf8Bytes_ascii _ hs, List.length_map]
      rfl
    rw [encodeRPC, specEncode, hlen]
  · decide

/-- Witness for C8: the ASCII case applied to a concrete body. -/
theorem C8_ascii_encode_witness : encodeRPC "abc" = specEncode "abc" :=
  C8_ascii_encode.1 "abc" (by decide)

/-- Counterexample for C8 as stated: on the one-character body `é` (U+00E9),
`encode` writes `Content-Length: 1` although the UTF-8 body is two bytes, so
the header is not the UTF-8 byte length. -/
theorem C8_counterexample :
    encodeRPC (String.mk [Char.ofNat 233]) ≠
      specEncode (String.mk [Char.ofNat 233]) ∧
    encodeRPC (String.mk [Char.ofNat 233]) =
      strBytes "Content-Length: 1" ++ [13, 10, 13, 10] ++ [195, 169] ∧
    (strUtf8 (String.mk [Char.ofNat 233])).length = 2 := by
  exact ⟨by decide, by decide, by decide⟩

/-- C3 (amended).  `ResponseParams` and `RPCMessage.response` always carry
exactly one of the `result` / `error` keys — the error key exactly when the
error argument is truthy (a well-formed error object always is, holding
`code` and `message`).  The v2 `ResponseMessage.create`, however, always
carries both a `results` and an `error` key. -/
theorem C3_exactly_one :
    (∀ result error : JValue,
      (jhasKey (responseParams result error) "result" = true ∧
        jhasKey (responseParams result error) "error" = false) ∨
      (jhasKey (responseParams result error) "result" = false ∧
        jhasKey (responseParams result error) "error" = true)) ∧
    (∀ result error : JValue,
      (jhasKey (rpcResponse result error) "result" = true ∧
        jhasKey (rpcResponse result error) "error" = false) ∨
      (jhasKey (rpcResponse result error) "result" = false ∧
        jhasKey (rpcResponse result error) "error" = true)) ∧
    (∀ msgId results error : JValue,
      jhasKey (responseMessageCreate msgId results error) "results" = true ∧
      jhasKey (responseMessageCreate msgId results error) "error" = true) := by
  refine ⟨?_, ?_, ?_⟩
  · intro result error
    by_cases h : jtruthy error = true
    · right
      simp [responseParams, h, jhasKey, jlookup]
    · left
      rw [Bool.not_eq_true] at h
      simp [responseParams, h, jhasKey, jlookup]
  · intro result error
    by_cases h : jtruthy error = true
    · right
      simp [rpcResponse, h, jhasKey, jlookup]
    · left
      rw [Bool.not_eq_true] at h
      simp [rpcResponse, h, jhasKey, jlookup]
  · intro msgId results error
    constructor <;> simp [responseMessageCreate, jhasKey, jlookup]

/-- Counterexample for C3 as stated: `ResponseMessage.create` invoked with
both a result value and an error object produces a message carrying both
fields at once. -/
theorem C3_counterexample :
    jhasKey (responseMessageCreate (.num 1) (.num 42)
      (.obj [("code", .num 1), ("message", .str "boom")])) "results" = true ∧
    jhasKey (responseMessageCreate (.num 1) (.num 42)
      (.obj [("code", .num 1), ("message", .str "boom")])) "error" = true ∧
    jtruthy (.num 42) = true ∧
    jtruthy (.obj [("code", .num 1), ("message", .str "boom")]) = true := by
  exact ⟨by decide, by decide, by decide, by decide⟩

/-- C6.  When the client read loop hits `socket.timeout`, `request` returns
without raising — but the synthesized response places the timeout error
object under the `result` key, because `RPCMessage.response` receives the
`RPCErrorMessage` positionally as its `result` argument: the claimed error
response (an `error` field with the dedicated code 5000) is never built. -/
theorem C6_timeout_result_slot (jsonP : String → Option JValue) (bufSize : Nat)
    (events : List RecvEvent) (buffer : List Nat) :
    clientLoop jsonP bufSize (RecvEvent.timeout :: events) buffer =
      some (.response timeoutResp) ∧
    timeoutResp = .obj [("result",
      .obj [("code", .num 5000), ("message", .str "request timedout")])] ∧
    jhasKey timeoutResp "result" = true ∧
    jhasKey timeoutResp "error" = false := by
  exact ⟨rfl, rfl, rfl, rfl⟩

/-- C7 (amended).  Handling `shutdown` sets the terminate flag and the
request handler then ends the process with exit code 0; handling `exit` only
clears the project settings and answers an empty result — it leaves the
terminate flag unchanged, so the process does not exit. -/
theorem C7_shutdown_terminates (env : Env) (st : ServerState) (p q : JValue) :
    (((handleMessage env st (mkRequest "shutdown" p)).1).terminate = true ∧
      exitAfterSend (handleMessage env st (mkRequest "shutdown" p)).1 = some 0 ∧
      (handleMessage env st (mkRequest "shutdown" p)).2 =
        .reply (.obj [("result", .null)])) ∧
    (((handleMessage env st (mkRequest "exit" q)).1).terminate = st.terminate ∧
      ((handleMessage env st (mkRequest "exit" q)).1).projectSettings = [] ∧
      (handleMessage env st (mkRequest "exit" q)).2 =
        .reply (.obj [("result", .null)])) := by
  exact ⟨⟨rfl, rfl, rfl⟩, ⟨rfl, rfl, rfl⟩⟩

/-- Counterexample for C7 as stated: after handling an `exit` request from a
fresh server, the terminate flag is still down and the request handler does
not call `sys.exit` — only `shutdown` stops the listener. -/
theorem C7_counterexample :
    ((handleMessage trivEnv freshState (mkRequest "exit" .null)).1).terminate =
      false ∧
    exitAfterSend (handleMessage trivEnv freshState
      (mkRequest "exit" .null)).1 = none := by
  exact ⟨rfl, rfl⟩

/-- C9.  A `change_workspace` request whose path equals the cached workspace
does skip the configuration call and leaves the state unchanged, but the
handler's bare `return` hands `None` to `handle_message`, whose
`result.to_str()` raises `AttributeError`: the reply is an `INTERNAL_ERROR`
error response, not the empty result the table promises. -/
theorem C9_cached_path_internal_error :
    handleMessage trivEnv wsState
        (mkRequest "change_workspace" (.obj [("path", .str "/w")])) =
      (wsState, .reply (responseParams .null (responseError INTERNAL_ERROR
        "AttributeError: NoneType object has no attribute to_str"))) ∧
    outcomeErrorCode (handleMessage trivEnv wsState
      (mkRequest "change_workspace" (.obj [("path", .str "/w")]))).2 =
        some INTERNAL_ERROR ∧
    (handleMessage trivEnv wsState
      (mkRequest "change_workspace"
        (.obj [("path", .str "/w")]))).1.projectSettings =
      [("workspace", .str "/w")] := by
  exact ⟨rfl, rfl, rfl⟩

/-- C4.  A request whose method name (a non-empty string, as §3 of the
specification requires of requests) is not in the dispatch table always
gets a well-formed error response with the unknown-method code and no
exception escapes the dispatcher: `handle_message` (src/server/app.py)
replies `METHOD_ERROR` (5004) for every unregistered string method, and the
v2 `process` (src/editing_tools/server/server.py) replies `METHOD_NOT_FOUND`
(-32601) through the caught `MethodNotFound` for every unregistered
non-empty method (an empty method name fails `RequestMessage.method`'s
truthiness check first and is answered `INVALID_REQUEST`, as the last
conjunct records). -/
theorem C4_unknown_method (env : Env) (st : ServerState) (m : String)
    (params : JValue) (h : serviceMap m = none)
    (venv : V2Env) (kvs : List (String × JValue)) (pid : JValue) (m2 : String)
    (hid : jlookup kvs "id" = some pid) (hpid : jtruthy pid = true)
    (hm : jlookup kvs "method" = some (.str m2)) (hm2 : m2 ≠ "")
    (h2 : List.contains venv.commands m2 = false) :
    handleMessage env st (mkRequest m params) =
      (st, .reply (responseParams .null (responseError METHOD_ERROR
        ("method not found '" ++ m ++ "'")))) ∧
    outcomeErrorCode (handleMessage env st (mkRequest m params)).2 =
      some METHOD_ERROR ∧
    v2Process venv (some (.obj kvs)) =
      .reply (responseMessageCreate pid .null (v2Error METHOD_NOT_FOUND)) ∧
    getErrorCode (responseMessageCreate pid .null (v2Error METHOD_NOT_FOUND)) =
      some METHOD_NOT_FOUND ∧
    v2Process venv (some (.obj [("id", .num 1), ("method", .str "")])) =
      .reply (responseMessageCreate (.num 1) .null (v2Error INVALID_REQUEST)) := by
  have happ : handleMessage env st (mkRequest m params) =
      (st, .reply (responseParams .null (responseError METHOD_ERROR
        ("method not found '" ++ m ++ "'")))) := by
    simp [handleMessage, mkRequest, jlookup, h]
  have h2' : ¬ m2 ∈ venv.commands := by simpa using h2
  have hmt : jtruthy (JValue.str m2) = true := by
    have hie : m2.isEmpty = false := by
      cases hie2 : m2.isEmpty with
      | false => rfl
      | true => exact absurd ((String.isEmpty_iff m2).mp hie2) hm2
    simp [jtruthy, hie]
  refine ⟨happ, by rw [happ]; rfl, ?_, rfl, rfl⟩
  simp [v2Process, hid, hpid, hm, hmt, h2']

/-- Witness for C4: the unregistered method name `bogus` against both
dispatchers. -/
theorem C4_unknown_method_witness :
    serviceMap "bogus" = none ∧
    List.contains trivV2Env.commands "bogus" = false ∧
    handleMessage trivEnv freshState (mkRequest "bogus" .null) =
      (freshState, .reply (responseParams .null (responseError METHOD_ERROR
        "method not found 'bogus'"))) ∧
    v2Process trivV2Env
        (some (.obj [("id", .num 1), ("method", .str "bogus")])) =
      .reply (responseMessageCreate (.num 1) .null (v2Error METHOD_NOT_FOUND)) :=
  ⟨by decide, by decide,
    (C4_unknown_method trivEnv freshState "bogus" .null (by decide) trivV2Env
      [("id", .num 1), ("method", .str "bogus")] (.num 1) "bogus" rfl
      (by decide) rfl (by decide) (by decide)).1,
    (C4_unknown_method trivEnv freshState "bogus" .null (by decide) trivV2Env
      [("id", .num 1), ("method", .str "bogus")] (.num 1) "bogus" rfl
      (by decide) rfl (by decide) (by decide)).2.2.1⟩

/-- C5.  A `document_completion` request against a fresh (uninitialized)
server is rejected with `NOT_INITIALIZED`; after an `initialize` request (any
parameters) the same completion request succeeds with a plain result — here
the empty candidate list, given a backend stub that returns it. -/
theorem C5_completion_initialization (env : Env) (initP : JValue)
    (kvs : List (String × JValue)) (src row col : JValue)
    (hs : jlookup kvs "source" = some src)
    (hr : jlookup kvs "row" = some row)
    (hc : jlookup kvs "column" = some col)
    (hstub : env.complete src row col = .ok (.arr [])) :
    handleMessage env freshState (mkRequest "document_completion" (.obj kvs)) =
      (freshState, .reply (responseParams .null (responseError NOT_INITIALIZED
        "project not initialized"))) ∧
    outcomeErrorCode (handleMessage env freshState
      (mkRequest "document_completion" (.obj kvs))).2 = some NOT_INITIALIZED ∧
    (handleMessage env
        ((handleMessage env freshState (mkRequest "initialize" initP)).1)
        (mkRequest "document_completion" (.obj kvs))).2 =
      .reply (.obj [("result", .arr [])]) ∧
    jhasKey (.obj [("result", .arr [])]) "error" = false := by
  refine ⟨rfl, rfl, ?_, rfl⟩
  have hred : handleMessage env
      ((handleMessage env freshState (mkRequest "initialize" initP)).1)
      (mkRequest "document_completion" (.obj kvs)) =
      dispatchResult (docCompletionH env
        ⟨[("workspace", initWorkspacePath env initP)], false⟩ (.obj kvs)) := rfl
  rw [hred]
  simp [docCompletionH, hs, hr, hc, hstub, dispatchResult, responseParams,
    jtruthy]

/-- Witness for C5: a concrete completion request before and after
`initialize` against the stub environment. -/
theorem C5_completion_initialization_witness :
    jlookup [("source", JValue.str ""), ("row", JValue.num 1),
      ("column", JValue.num 0)] "source" = some (JValue.str "") ∧
    trivEnv.complete (.str "") (.num 1) (.num 0) = .ok (.arr []) ∧
    outcomeErrorCode (handleMessage trivEnv freshState
      (mkRequest "document_completion" (.obj [("source", JValue.str ""),
        ("row", JValue.num 1), ("column", JValue.num 0)]))).2 =
      some NOT_INITIALIZED ∧
    (handleMessage trivEnv
        ((handleMessage trivEnv freshState (mkRequest "initialize" .null)).1)
        (mkRequest "document_completion" (.obj [("source", JValue.str ""),
          ("row", JValue.num 1), ("column", JValue.num 0)]))).2 =
      .reply (.obj [("result", .arr [])]) :=
  ⟨rfl, rfl,
    (C5_completion_initialization trivEnv .null
      [("source", JValue.str ""), ("row", JValue.num 1),
        ("column", JValue.num 0)]
      (.str "") (.num 1) (.num 0) rfl rfl rfl rfl).2.1,
    (C5_completion_initialization trivEnv .null
      [("source", JValue.str ""), ("row", JValue.num 1),
        ("column", JValue.num 0)]
      (.str "") (.num 1) (.num 0) rfl rfl rfl rfl).2.2.1⟩

/-- C10.  `initialize` never raises and never returns an error, whatever the
parameters: it always replies with the capability map, records the workspace
(the empty string when the path lookup or `chdir` fails), leaves
`project_settings` non-empty, and a subsequent `document_completion` is never
rejected with `NOT_INITIALIZED`. -/
theorem C10_init_total (env : Env) (st : ServerState) (params : JValue) :
    handleMessage env st (mkRequest "initialize" params) =
      ({ st with
          projectSettings :=
            jsetKey st.projectSettings "workspace" (initWorkspacePath env params) },
        .reply (.obj [("result", capabilityMap env)])) ∧
    (jsetKey st.projectSettings "workspace"
      (initWorkspacePath env params)).isEmpty = false ∧
    (∀ wkvs, jlookup wkvs "workspace" = none →
      initWorkspacePath env (.obj wkvs) = .str "") ∧
    (∀ cparams, outcomeErrorCode
        ((handleMessage env
          { st with
              projectSettings :=
                jsetKey st.projectSettings "workspace" (initWorkspacePath env params) }
          (mkRequest "document_completion" cparams)).2) ≠
      some NOT_INITIALIZED) := by
  refine ⟨rfl, jsetKey_isEmpty_false _ _ _, ?_, ?_⟩
  · intro wkvs hw
    simp [initWorkspacePath, hw]
  · intro cparams
    exact completion_not_rejected env _ cparams (jsetKey_isEmpty_false _ _ _)

/-- Witness for C10: `initialize` with `null` parameters (no workspace at
all) still succeeds, records the empty workspace and unlocks completion. -/
theorem C10_init_total_witness :
    handleMessage trivEnv freshState (mkRequest "initialize" .null) =
      ({ freshState with
          projectSettings :=
            jsetKey freshState.projectSettings "workspace"
              (initWorkspacePath trivEnv .null) },
        .reply (.obj [("result", capabilityMap trivEnv)])) ∧
    initWorkspacePath trivEnv (.obj []) = .str "" ∧
    outcomeErrorCode ((handleMessage trivEnv
        { freshState with
            projectSettings :=
              jsetKey freshState.projectSettings "workspace"
                (initWorkspacePath trivEnv .null) }
        (mkRequest "document_completion" .null)).2) ≠ some NOT_INITIALIZED :=
  ⟨(C10_init_total trivEnv freshState .null).1,
    (C10_init_total trivEnv freshState .null).2.2.1 [] rfl,
    (C10_init_total trivEnv freshState .null).2.2.2 .null⟩
